import Mathlib

/-!
Verification development for `src/main.py` of the `iot_toucher` repository:
an edge-device agent that bridges a touch sensor and a pub/sub channel.
The Python source is shallowly embedded below: pure dict/JSON manipulation
becomes functions over association lists, the module-level mutable globals
(`INCOMING`, `METRICS`, the two event flags) become an explicit
`AgentState` record, and each worker-loop body becomes a state-transition
function taking the outcome of its fallible external call as a parameter.
Components that the spec describes but that are absent from `src/main.py`
(the debounced edge sampler, which the source delegates to the GPIO
library's `bouncetime` parameter, and the output state machine, which this
variant does not implement) are modelled from the spec and marked as such.
-/

namespace IotToucher

/-- JSON scalar values, as produced by `json.loads` for leaf positions.
The model restricts JSON values to scalars and flat objects; this suffices
for every message shape `src/main.py` constructs or inspects. -/
inductive JAtom where
  | str (s : String)
  | num (n : Int)
  | boolVal (b : Bool)
  | null
deriving DecidableEq, Repr

/-- Result of `json.loads` on a decoded payload: either a JSON object
(a Python dict, modelled as an insertion-ordered association list) or a
non-object JSON value (number, string, boolean, null). -/
inductive JVal where
  | obj (d : List (String × JAtom))
  | atomV (a : JAtom)
deriving DecidableEq, Repr

/-- Python `dict.get(k)`: the value at the first matching key, else `none`. -/
def dictGet (d : List (String × JAtom)) (k : String) : Option JAtom :=
  (d.find? (fun kv => kv.1 == k)).map (fun kv => kv.2)

/-- Python `d[k] = v`: overwrite in place when the key exists, else append. -/
def dictSet (d : List (String × JAtom)) (k : String) (v : JAtom) : List (String × JAtom) :=
  if d.any (fun kv => kv.1 == k) then
    d.map (fun kv => if kv.1 == k then (k, v) else kv)
  else
    d ++ [(k, v)]

/-- Python `base.update(extra)`: assign each key of `extra` in order. -/
def dictUpdate (base extra : List (String × JAtom)) : List (String × JAtom) :=
  extra.foldl (fun acc kv => dictSet acc kv.1 kv.2) base

/-- Python `msg.get("client_id") == current_client_id` where `msg.get`
returns an optional JSON value and `current_client_id` is a `str`:
equality holds exactly when the value is present and is that string
(Python `==` across types, including `None == str`, is `False`). -/
def jatomOptEqStr (o : Option JAtom) (s : String) : Bool :=
  match o with
  | some (JAtom.str t) => t == s
  | _ => false

/-- Python attribute access `v.get k` on a parsed JSON value: succeeds on a
dict, raises `AttributeError` on any non-object value. -/
def pyGet (v : JVal) (k : String) : Except String (Option JAtom) :=
  match v with
  | JVal.obj d => Except.ok (dictGet d k)
  | JVal.atomV _ => Except.error "AttributeError"

/-- The `METRICS` dict built by `build_metrics` (src/main.py lines 26-35).
The `-1` integer sentinel that `last_publish_timestamp` holds before the
first publish is modelled as `none`. -/
structure Metrics where
  startup_timestamp : String
  total_time_alive : Int
  last_publish_timestamp : Option String
  total_messages_sent : Nat
  total_messages_received : Nat
  client_reconnections : Int
deriving DecidableEq, Repr

/-- Python `build_metrics()` evaluated at startup time `now_iso`. -/
def build_metrics (now_iso : String) : Metrics :=
  { startup_timestamp := now_iso
    total_time_alive := 0
    last_publish_timestamp := none
    total_messages_sent := 0
    total_messages_received := 0
    client_reconnections := -1 }

/-- An entry of the `INCOMING` queue: either a parsed remote message or the
error record `{"_raw": repr(payload), "_error": str(e)}` that the `except`
branch of `on_message` enqueues. -/
inductive Entry where
  | msg (v : JVal)
  | err (raw e : String)
deriving DecidableEq, Repr

/-- The module-level mutable globals of src/main.py: the `INCOMING` queue
(modelled as the list of enqueued entries), the `METRICS` dict, and the two
`threading.Event` flags `STOP_EVENT` and `RECONNECT_EVENT`. -/
structure AgentState where
  incoming : List Entry
  metrics : Metrics
  stopEv : Bool
  reconnectEv : Bool
deriving DecidableEq, Repr

/-- Outcome of `payload.decode("utf-8")` followed by `json.loads` on a raw
inbound payload (both from the Python standard library, outside this
repository): either a parsed JSON value or a decode/parse failure, each
carrying `repr(payload)` of the raw bytes. -/
inductive DecodeResult where
  | ok (raw : String) (v : JVal)
  | fail (raw : String) (e : String)
deriving DecidableEq, Repr

/-- The body of the `try` block of `on_message` (src/main.py lines 48-57):
decode and parse may fail, `msg.get` may raise `AttributeError`; a
self-originated message returns early, any other parsed message is put on
`INCOMING` and counted in `total_messages_received`. -/
def on_message_body (current : String) (p : DecodeResult) (s : AgentState) :
    Except (String × String) AgentState :=
  match p with
  | DecodeResult.fail raw e => Except.error (raw, e)
  | DecodeResult.ok raw v =>
    match pyGet v "client_id" with
    | Except.error e => Except.error (raw, e)
    | Except.ok cid =>
      if jatomOptEqStr cid current then
        Except.ok s
      else
        Except.ok
          { s with
            incoming := s.incoming ++ [Entry.msg v]
            metrics :=
              { s.metrics with
                total_messages_received := s.metrics.total_messages_received + 1 } }

/-- Python `on_message` (src/main.py lines 47-61): the `except Exception`
handler catches every failure of the body and enqueues the error record,
so the function is total (never raises to its caller, the transport
library). -/
def on_message (current : String) (p : DecodeResult) (s : AgentState) : AgentState :=
  match on_message_body current p s with
  | Except.ok s' => s'
  | Except.error (raw, e) => { s with incoming := s.incoming ++ [Entry.err raw e] }

/-- Condition under which `on_message` increments `total_messages_received`:
the payload parsed to a JSON object whose `client_id` field is not the
string equal to the current identity. -/
def incrCond (current : String) (p : DecodeResult) : Bool :=
  match p with
  | DecodeResult.ok _ (JVal.obj d) => !(jatomOptEqStr (dictGet d "client_id") current)
  | _ => false

/-- Condition under which `on_message` treats the payload as a self-echo:
a parsed JSON object whose `client_id` equals the current identity. -/
def isSelf (current : String) (p : DecodeResult) : Bool :=
  match p with
  | DecodeResult.ok _ (JVal.obj d) => jatomOptEqStr (dictGet d "client_id") current
  | _ => false

/-- Python `build_message(client_id, action, **extra)` (src/main.py lines
63-71): the base dict holds `client_id`, the timestamp produced inside by
`datetime.now(timezone.utc).isoformat()` (injected here as the parameter
`timestamp`), and `action`; then `base.update(extra)` merges the extra
fields. Python call syntax makes the keys `client_id` and `action`
impossible in `extra` (a `TypeError` at the call site), but `timestamp`
can appear and then overwrites the generated one. -/
def build_message (client_id timestamp action : String)
    (extra : List (String × JAtom)) : List (String × JAtom) :=
  dictUpdate
    [("client_id", JAtom.str client_id),
     ("timestamp", JAtom.str timestamp),
     ("action", JAtom.str action)]
    extra

/-- Checks the two shapes that `datetime.isoformat()` produces for an
aware UTC datetime: `YYYY-MM-DDTHH:MM:SS+00:00`, optionally with a
`.ffffff` microsecond part, modelling what `datetime.fromisoformat`
accepts back as a valid ISO-8601 UTC timestamp. -/
def isValidIso (s : String) : Bool :=
  match s.data with
  | [y1, y2, y3, y4, h1, mo1, mo2, h2, d1, d2, tt,
     hh1, hh2, c1, mi1, mi2, c2, ss1, ss2,
     pl, z1, z2, c3, z3, z4] =>
      [y1, y2, y3, y4, mo1, mo2, d1, d2, hh1, hh2, mi1, mi2, ss1, ss2].all Char.isDigit
        && (h1 == '-') && (h2 == '-') && (tt == 'T')
        && (c1 == ':') && (c2 == ':')
        && (pl == '+') && (z1 == '0') && (z2 == '0')
        && (c3 == ':') && (z3 == '0') && (z4 == '0')
  | [y1, y2, y3, y4, h1, mo1, mo2, h2, d1, d2, tt,
     hh1, hh2, c1, mi1, mi2, c2, ss1, ss2,
     dot, f1, f2, f3, f4, f5, f6,
     pl, z1, z2, c3, z3, z4] =>
      [y1, y2, y3, y4, mo1, mo2, d1, d2, hh1, hh2, mi1, mi2, ss1, ss2,
       f1, f2, f3, f4, f5, f6].all Char.isDigit
        && (h1 == '-') && (h2 == '-') && (tt == 'T')
        && (c1 == ':') && (c2 == ':') && (dot == '.')
        && (pl == '+') && (z1 == '0') && (z2 == '0')
        && (c3 == ':') && (z3 == '0') && (z4 == '0')
  | _ => false

/-- One iteration of the body of `publisher_loop` (src/main.py lines
150-160): build and publish a status message; on success bump
`total_messages_sent` and `last_publish_timestamp`, on any exception set
`RECONNECT_EVENT` (the `except` clause). `pub` is the outcome of the
external `client.publish` call. -/
def publisher_iter (now : String) (pub : Except String Unit) (s : AgentState) : AgentState :=
  match pub with
  | Except.ok _ =>
      { s with
        metrics :=
          { s.metrics with
            total_messages_sent := s.metrics.total_messages_sent + 1
            last_publish_timestamp := some now } }
  | Except.error _ => { s with reconnectEv := true }

/-- The subscribe step of `listener_loop` (src/main.py lines 134-148):
on a subscribe failure the `except` clause sets `RECONNECT_EVENT`. -/
def listener_iter (sub : Except String Unit) (s : AgentState) : AgentState :=
  match sub with
  | Except.ok _ => s
  | Except.error _ => { s with reconnectEv := true }

/-- Python `touch_callback` (src/main.py lines 95-106): when the pin reads
HIGH, publish a touch message and update the metrics; on any exception set
`RECONNECT_EVENT`. -/
def touch_callback (level : Bool) (now : String) (pub : Except String Unit)
    (s : AgentState) : AgentState :=
  if level then
    match pub with
    | Except.ok _ =>
        { s with
          metrics :=
            { s.metrics with
              total_messages_sent := s.metrics.total_messages_sent + 1
              last_publish_timestamp := some now } }
    | Except.error _ => { s with reconnectEv := true }
  else s

/-- Python `on_interrupted` (src/main.py lines 209-211): log and set
`RECONNECT_EVENT`; it performs no reconnection itself. -/
def on_interrupted (e : String) (s : AgentState) : AgentState :=
  { s with reconnectEv := true }

/-- Fire times of `publisher_loop`: the loop publishes, the publish call
takes `d` time units (scheduling jitter plus call duration), then sleeps
exactly `interval` (`time.sleep(10)` at src/main.py line 157), so the next
publish starts at `start + d + interval`. The list argument holds the
jitter of each completed iteration. -/
def fireTimes (interval : Int) (start : Int) : List Int → List Int
  | [] => [start]
  | d :: ds => start :: fireTimes interval (start + d + interval) ds

/-- The events that can steer one iteration of the `while True` loop of
`main` (src/main.py lines 220-250): the connection attempt fails with an
exception, the user interrupts, or a full connect-run-teardown cycle
completes after a reconnect request. -/
inductive MainEvent where
  | connectFail (e : String)
  | keyboardInterrupt
  | cycle
deriving DecidableEq, Repr

/-- Outcome of one iteration of `main`'s loop: continue looping, exit
normally after user interrupt, or terminate the process with an uncaught
exception. -/
inductive IterOutcome where
  | continueLoop
  | exitSuccess
  | crash (msg : String)
deriving DecidableEq, Repr

/-- One iteration of `main`'s `while True` loop (src/main.py lines
220-250). A failed connection attempt reaches the generic
`except Exception` clause at line 246, which re-raises a `RuntimeError`
(with a message copied from `setup_touch_listener`) that nothing catches:
the process terminates. `KeyboardInterrupt` breaks out after cleanup. -/
def mainIter : MainEvent → IterOutcome
  | MainEvent.connectFail e =>
      IterOutcome.crash ("Failed to add edge detection on GPIO17: " ++ e)
  | MainEvent.keyboardInterrupt => IterOutcome.exitSuccess
  | MainEvent.cycle => IterOutcome.continueLoop

/-- Python `build_mqtt_client` (src/main.py lines 74-91), identity part:
`client_id = str(uuid.uuid4())` draws a fresh value from the process's
random source, modelled as an abstract draw sequence `gen` indexed by the
number of draws made so far. Returns the new identity and the next draw
index. -/
def build_mqtt_client {α : Type} (gen : Nat → α) (n : Nat) : α × Nat :=
  (gen n, n + 1)

/-- The identities used by `k` successive iterations of `main`'s reconnect
loop starting from draw index `c`: each iteration calls
`build_mqtt_client` anew before connecting (src/main.py line 222), so each
attempt consumes the next draw. -/
def mainIdentities {α : Type} (gen : Nat → α) : Nat → Nat → List α
  | _, 0 => []
  | c, k + 1 =>
      (build_mqtt_client gen c).1 :: mainIdentities gen (build_mqtt_client gen c).2 k

/-- Modelled from the spec: the OutputStateMachine of §4.3 is absent from
`src/main.py` (this variant consumes no inbound events and drives no
output pin); the decaying-window state holds the timestamp until which the
output is active. -/
structure OutputState where
  end_at : Int
deriving DecidableEq, Repr

/-- Modelled from the spec: `on_remote_event("touch")` sets
`end_at = now + window_duration`, unconditionally overwriting any prior
value (refresh-not-accumulate, §4.3); any other action leaves the state
unchanged. -/
def on_remote_event (now window : Int) (action : String) (s : OutputState) : OutputState :=
  if action == "touch" then { end_at := now + window } else s

/-- State of the debounced edge sampler: the previously read level and the
time of the last accepted rising edge. -/
structure EdgeState where
  last_level : Bool
  last_rise : Int
deriving DecidableEq, Repr

/-- Modelled from the spec: the DebouncedEdgeSampler algorithm of §4.2.
`src/main.py` delegates debouncing to the GPIO library
(`GPIO.add_event_detect(..., bouncetime=200)` at lines 122-127, with the
window in milliseconds); the algorithm itself lives outside the
repository. A rising edge (`last_level == false && level == true`) is
accepted only if `now - last_rise >= w`; acceptance updates `last_rise`
and emits the event, rejection updates only `last_level`. -/
def sampleStep (w : Int) (s : EdgeState) (now : Int) (level : Bool) : EdgeState × Bool :=
  if !s.last_level && level then
    if w ≤ now - s.last_rise then
      ({ last_level := level, last_rise := now }, true)
    else
      ({ s with last_level := level }, false)
  else
    ({ s with last_level := level }, false)

/-- Runs the sampler over a list of timed boolean samples, returning the
final state and the number of emitted edge events. -/
def runSampler (w : Int) (s : EdgeState) : List (Int × Bool) → EdgeState × Nat
  | [] => (s, 0)
  | sm :: rest =>
      let stepped := sampleStep w s sm.1 sm.2
      let next := runSampler w stepped.1 rest
      (next.1, (if stepped.2 then 1 else 0) + next.2)

/-- One physical press as seen by the sampler: an idle (low) sample, the
genuine rising sample, then electrical bounce chatter given as pairs of a
falling and a rising sample time. -/
structure Press where
  fall : Int
  rise : Int
  bounces : List (Int × Int)
deriving DecidableEq, Repr

/-- The timed samples produced by a list of bounce pairs. -/
def bounceSamples : List (Int × Int) → List (Int × Bool)
  | [] => []
  | b :: bs => (b.1, false) :: (b.2, true) :: bounceSamples bs

/-- The timed samples of one press. -/
def pressSamples (p : Press) : List (Int × Bool) :=
  (p.fall, false) :: (p.rise, true) :: bounceSamples p.bounces

/-- The timed samples of a sequence of presses. -/
def samplesOf : List Press → List (Int × Bool)
  | [] => []
  | p :: ps => pressSamples p ++ samplesOf ps

/-- Holds when, starting from last accepted rise time `lr`, each press's
genuine rise is at least the debounce window `w` after the previous
accepted rise and all its bounce rises fall strictly inside the window
opened by the genuine rise. -/
def wellSpaced (w : Int) : Int → List Press → Bool
  | _, [] => true
  | lr, p :: ps =>
      decide (w ≤ p.rise - lr)
        && p.bounces.all (fun b => decide (b.2 - p.rise < w))
        && wellSpaced w p.rise ps

/-- C1: a parsed inbound message whose `client_id` equals the current
device identity is a self-echo: `on_message` returns with the agent state
unchanged — nothing is enqueued on `INCOMING` for remote dispatch and no
metric moves — regardless of the message's `action` value. -/
theorem on_message_self_echo (current raw : String) (d : List (String × JAtom))
    (s : AgentState) (h : dictGet d "client_id" = some (JAtom.str current)) :
    on_message current (DecodeResult.ok raw (JVal.obj d)) s = s := by
  simp [on_message, on_message_body, pyGet, h, jatomOptEqStr]

/-- Witness for C1: a concrete self-echo message carrying the remote
action `touch` leaves a concrete agent state untouched. -/
theorem on_message_self_echo_witness :
    dictGet [("client_id", JAtom.str "me"), ("action", JAtom.str "touch")] "client_id"
        = some (JAtom.str "me")
      ∧ on_message "me"
          (DecodeResult.ok "rawbytes"
            (JVal.obj [("client_id", JAtom.str "me"), ("action", JAtom.str "touch")]))
          ⟨[], build_metrics "t0", false, false⟩
        = ⟨[], build_metrics "t0", false, false⟩ :=
  ⟨rfl,
   on_message_self_echo "me" "rawbytes"
     [("client_id", JAtom.str "me"), ("action", JAtom.str "touch")]
     ⟨[], build_metrics "t0", false, false⟩ rfl⟩

/-- C2 (code bug): a failed connection attempt in `main`'s loop reaches
the generic `except Exception` clause (src/main.py line 246), which
re-raises a `RuntimeError` that nothing catches — the process terminates
instead of logging and retrying after a delay. The intended retry handler
is present but commented out (lines 248-250), and the raised message is
copied verbatim from `setup_touch_listener`. -/
theorem main_connect_failure_crashes :
    mainIter (MainEvent.connectFail "ConnectTimeout")
      = IterOutcome.crash "Failed to add edge detection on GPIO17: ConnectTimeout" :=
  rfl

/-- C3 counterexample: both halves of the claim fail on explicit inputs. A
payload failing UTF-8 decoding does change shared state — the error record
is placed on the `INCOMING` queue, so the message is recorded rather than
dropped; and a payload that parses to a JSON object lacking the required
fields records no malformed outcome at all — `on_message` never checks for
required fields, so the object `{"foo": 1}` is enqueued as an ordinary
remote message and counted in `total_messages_received`. -/
theorem on_message_malformed_claim_refuted :
    on_message "me" (DecodeResult.fail "rawbytes" "UnicodeDecodeError")
        ⟨[], build_metrics "t0", false, false⟩
      ≠ ⟨[], build_metrics "t0", false, false⟩
    ∧ (on_message "me" (DecodeResult.ok "r2" (JVal.obj [("foo", JAtom.num 1)]))
        ⟨[], build_metrics "t0", false, false⟩).incoming
      = [Entry.msg (JVal.obj [("foo", JAtom.num 1)])]
    ∧ (on_message "me" (DecodeResult.ok "r2" (JVal.obj [("foo", JAtom.num 1)]))
        ⟨[], build_metrics "t0", false, false⟩).metrics.total_messages_received = 1 :=
  ⟨by decide, rfl, rfl⟩

/-- C3 amended: on any decode/parse failure `on_message` appends the error
record `{_raw, _error}` to the `INCOMING` queue and changes nothing else —
metrics and flags untouched — and, the `except Exception` handler being
total, never raises to its caller; a payload that parses to a JSON object
lacking the `client_id` field is not treated as malformed — it takes the
ordinary remote path, appended to the queue as a message and counted. -/
theorem on_message_malformed_vs_missing_fields (current raw e : String)
    (d : List (String × JAtom)) (s : AgentState)
    (hmiss : dictGet d "client_id" = none) :
    on_message current (DecodeResult.fail raw e) s
        = { s with incoming := s.incoming ++ [Entry.err raw e] }
      ∧ on_message current (DecodeResult.ok raw (JVal.obj d)) s
        = { s with
            incoming := s.incoming ++ [Entry.msg (JVal.obj d)]
            metrics :=
              { s.metrics with
                total_messages_received := s.metrics.total_messages_received + 1 } } := by
  refine ⟨rfl, ?_⟩
  simp [on_message, on_message_body, pyGet, hmiss, jatomOptEqStr]

/-- Witness for C3: a concrete object payload carrying only `action` (no
`client_id`) is routed as an ordinary remote message and counted. -/
theorem on_message_malformed_vs_missing_fields_witness :
    dictGet [("action", JAtom.str "touch")] "client_id" = none
      ∧ (on_message "me"
            (DecodeResult.ok "r2" (JVal.obj [("action", JAtom.str "touch")]))
            ⟨[], build_metrics "t0", false, false⟩).metrics.total_messages_received = 1 := by
  refine ⟨rfl, ?_⟩
  rw [(on_message_malformed_vs_missing_fields "me" "r2" "boom"
        [("action", JAtom.str "touch")] ⟨[], build_metrics "t0", false, false⟩ rfl).2]
  rfl

/-- C5: `on_remote_event "touch"` overwrites `end_at` with
`now + window` for every prior state, so delivering the same touch twice
(at `t1` then `t2`) ends exactly as delivering it once at `t2` — refresh,
never accumulation. -/
theorem on_remote_event_refresh (t1 t2 window : Int) (s : OutputState) :
    on_remote_event t2 window "touch" (on_remote_event t1 window "touch" s)
        = on_remote_event t2 window "touch" s
      ∧ on_remote_event t2 window "touch" s = { end_at := t2 + window } := by
  constructor <;> simp [on_remote_event]

/-- C8: every publish or subscribe error in steady state — in the
publisher loop, the listener loop, or the touch callback — only sets the
shared reconnect-needed flag (the worker returns normally, so the process
does not crash), and the connection-interrupted callback likewise only
sets the flag without reconnecting or touching anything else. -/
theorem steady_state_errors_set_reconnect (e now : String) (s : AgentState) :
    publisher_iter now (Except.error e) s = { s with reconnectEv := true }
      ∧ listener_iter (Except.error e) s = { s with reconnectEv := true }
      ∧ touch_callback true now (Except.error e) s = { s with reconnectEv := true }
      ∧ on_interrupted e s = { s with reconnectEv := true } :=
  ⟨rfl, rfl, rfl, rfl⟩

/-- C10 counterexample: the payload `5` decodes as UTF-8 JSON and carries
no `client_id` (so its `client_id` differs from the identity `me`), yet
`total_messages_received` is not incremented: `msg.get` raises
`AttributeError` on a non-dict and the message takes the malformed path. -/
theorem received_not_incremented_for_scalar :
    (on_message "me" (DecodeResult.ok "5" (JVal.atomV (JAtom.num 5)))
          ⟨[], build_metrics "t0", false, false⟩).metrics.total_messages_received = 0
      ∧ (on_message "me" (DecodeResult.ok "5" (JVal.atomV (JAtom.num 5)))
          ⟨[], build_metrics "t0", false, false⟩).incoming
        = [Entry.err "5" "AttributeError"] := by
  constructor <;> rfl

/-- C10 amended: `total_messages_received` is incremented exactly when the
payload parses to a JSON object whose `client_id` is not the current
identity; and a self-originated payload leaves the state unchanged, in
particular it is never placed on the incoming queue. -/
theorem received_increment_iff (current : String) (p : DecodeResult) (s : AgentState) :
    ((on_message current p s).metrics.total_messages_received
          = s.metrics.total_messages_received + 1
        ↔ incrCond current p = true)
      ∧ (isSelf current p = true → on_message current p s = s) := by
  cases p with
  | fail raw e =>
      refine ⟨by simp [on_message, on_message_body, incrCond], fun h => ?_⟩
      simp [isSelf] at h
  | ok raw v =>
      cases v with
      | atomV a =>
          refine ⟨by simp [on_message, on_message_body, pyGet, incrCond], fun h => ?_⟩
          simp [isSelf] at h
      | obj d =>
          by_cases hc : jatomOptEqStr (dictGet d "client_id") current = true
          · refine ⟨by simp [on_message, on_message_body, pyGet, incrCond, hc], fun _ => ?_⟩
            simp [on_message, on_message_body, pyGet, hc]
          · refine ⟨by simp [on_message, on_message_body, pyGet, incrCond, hc], fun h => ?_⟩
            simp [isSelf, hc] at h

/-- Witness for C10: a concrete self-originated payload satisfies the
self condition and is dropped without any state change. -/
theorem received_increment_iff_witness :
    isSelf "me" (DecodeResult.ok "r" (JVal.obj [("client_id", JAtom.str "me")])) = true
      ∧ on_message "me" (DecodeResult.ok "r" (JVal.obj [("client_id", JAtom.str "me")]))
          ⟨[], build_metrics "t0", false, false⟩
        = ⟨[], build_metrics "t0", false, false⟩ :=
  ⟨by decide,
   (received_increment_iff "me" (DecodeResult.ok "r" (JVal.obj [("client_id", JAtom.str "me")]))
     ⟨[], build_metrics "t0", false, false⟩).2 (by decide)⟩

/-- The identity trace of the reconnect loop is the draw sequence read off
from index `c`: one fresh draw per attempt. -/
theorem mainIdentities_eq {α : Type} (gen : Nat → α) (c k : Nat) :
    mainIdentities gen c k = (List.range k).map (fun i => gen (c + i)) := by
  induction k generalizing c with
  | zero => simp [mainIdentities]
  | succ k ih =>
      simp only [mainIdentities, build_mqtt_client]
      rw [ih, List.range_succ_eq_map, List.map_cons, List.map_map]
      congr 1
      refine List.map_congr_left fun a _ => ?_
      simp only [Function.comp]
      congr 1
      omega

/-- C6: every iteration of the reconnect cycle draws a fresh identity
before connecting (`build_mqtt_client` consumes the next draw), exactly
one identity is current per attempt (the trace has one entry per
iteration), and — with the uuid4 source modelled as an injective draw
sequence — the identity of an attempt never equals that of any previous
attempt. -/
theorem fresh_identity_per_attempt {α : Type} (gen : Nat → α)
    (hgen : Function.Injective gen) (c k : Nat) :
    (mainIdentities gen c k).length = k ∧ (mainIdentities gen c k).Nodup := by
  rw [mainIdentities_eq]
  have hinj : Function.Injective (fun i => gen (c + i)) := by
    intro a b hab
    have h2 : c + a = c + b := hgen hab
    omega
  exact ⟨by simp, List.Nodup.map hinj (List.nodup_range k)⟩

/-- Witness for C6: three reconnect attempts against the identity draw
sequence yield three pairwise-distinct identities. -/
theorem fresh_identity_per_attempt_witness :
    (mainIdentities (fun n : Nat => n) 0 3).length = 3
      ∧ (mainIdentities (fun n : Nat => n) 0 3).Nodup :=
  fresh_identity_per_attempt (fun n : Nat => n) Function.injective_id 0 3

/-- C7 counterexample: the publisher sleeps a fixed 10 after each publish
completes, so one unit of jitter in the first iteration shifts every later
fire time — the schedule is `[0, 11, 21]`, not the fixed-phase arithmetic
sequence `[0, 10, 20]` the claim requires. -/
theorem publisher_schedule_not_fixed_phase :
    fireTimes 10 0 [1, 0] = [0, 11, 21] ∧ ([0, 11, 21] : List Int) ≠ [0, 10, 20] := by
  decide

/-- C7 amended: the n-th nominal fire time of the publisher loop is
`start + n * interval` plus the accumulated jitter of the first n
iterations — `now + interval` semantics whose phase drifts with jitter,
not a jitter-independent arithmetic sequence. -/
theorem publisher_fire_times_closed_form (interval start : Int) (ds : List Int) :
    fireTimes interval start ds
      = (List.range (ds.length + 1)).map
          (fun (n : Nat) => start + (n : Int) * interval + (ds.take n).sum) := by
  induction ds generalizing start with
  | nil => simp [fireTimes, List.range_succ, List.range_zero]
  | cons d ds ih =>
      simp only [fireTimes, List.length_cons]
      rw [List.range_succ_eq_map, List.map_cons, List.map_map, ih]
      congr 1
      · simp
      · refine List.map_congr_left fun a _ => ?_
        simp only [Function.comp, List.take_succ_cons, List.sum_cons]
        push_cast
        ring

/-- Running the sampler over a concatenation runs it over the pieces in
sequence and adds the event counts. -/
theorem runSampler_append (w : Int) (s : EdgeState) (l1 l2 : List (Int × Bool)) :
    runSampler w s (l1 ++ l2)
      = ((runSampler w (runSampler w s l1).1 l2).1,
         (runSampler w s l1).2 + (runSampler w (runSampler w s l1).1 l2).2) := by
  induction l1 generalizing s with
  | nil => simp [runSampler]
  | cons sm rest ih =>
      simp only [List.cons_append, runSampler, List.append_eq]
      rw [ih]
      simp [Nat.add_assoc]

/-- Bounce chatter whose rises all fall inside the window opened at `r`
emits no event and leaves the last accepted rise at `r`. -/
theorem runSampler_bounces (w r : Int) (bs : List (Int × Int))
    (h : ∀ b ∈ bs, b.2 - r < w) (lvl : Bool) :
    ∃ lvl2, runSampler w ⟨lvl, r⟩ (bounceSamples bs) = (⟨lvl2, r⟩, 0) := by
  induction bs generalizing lvl with
  | nil => exact ⟨lvl, rfl⟩
  | cons b bs ih =>
      have hb : ¬ (w ≤ b.2 - r) := not_le.mpr (h b (by simp))
      obtain ⟨lvl2, hrec⟩ := ih (fun x hx => h x (by simp [hx])) true
      have h1 : sampleStep w ⟨lvl, r⟩ b.1 false = (⟨false, r⟩, false) := by
        simp [sampleStep]
      have h2 : sampleStep w ⟨false, r⟩ b.2 true = (⟨true, r⟩, false) := by
        simp [sampleStep, hb]
      refine ⟨lvl2, ?_⟩
      simp only [bounceSamples, runSampler, h1, h2]
      simp [hrec]

/-- One press starting at least a window after the previous accepted rise
emits exactly one event and moves the last accepted rise to its genuine
rise time. -/
theorem runSampler_press (w : Int) (p : Press) (lvl : Bool) (lr : Int)
    (hrise : w ≤ p.rise - lr) (hb : ∀ b ∈ p.bounces, b.2 - p.rise < w) :
    ∃ lvl2, runSampler w ⟨lvl, lr⟩ (pressSamples p) = (⟨lvl2, p.rise⟩, 1) := by
  obtain ⟨lvl2, hrec⟩ := runSampler_bounces w p.rise p.bounces hb true
  have h1 : sampleStep w ⟨lvl, lr⟩ p.fall false = (⟨false, lr⟩, false) := by
    simp [sampleStep]
  have h2 : sampleStep w ⟨false, lr⟩ p.rise true = (⟨true, p.rise⟩, true) := by
    simp [sampleStep, hrise]
  refine ⟨lvl2, ?_⟩
  simp only [pressSamples, runSampler, h1, h2]
  simp [hrec]

/-- C4: over any sequence of presses whose bounce transitions stay inside
the debounce window and whose genuine rises are spaced at least the window
apart, the debounced sampler emits exactly one edge event per physical
press. -/
theorem debounce_one_event_per_press (w : Int) (ps : List Press) (lvl : Bool) (lr : Int)
    (h : wellSpaced w lr ps = true) :
    (runSampler w ⟨lvl, lr⟩ (samplesOf ps)).2 = ps.length := by
  induction ps generalizing lvl lr with
  | nil => rfl
  | cons p ps ih =>
      simp only [wellSpaced, Bool.and_eq_true, decide_eq_true_eq, List.all_eq_true] at h
      obtain ⟨⟨hrise, hball⟩, hrest⟩ := h
      obtain ⟨lvl2, hpress⟩ := runSampler_press w p lvl lr hrise hball
      simp only [samplesOf]
      rw [runSampler_append, hpress]
      simp [ih lvl2 p.rise hrest, Nat.add_comm]

/-- Witness for C4: the level sequence 0,1,0,1,0,1 sampled at 10 ms steps
with a 200 ms window — one genuine rise at t = 10 and bounce rises at
t = 30 and t = 50 — yields exactly 1 event, not 3. -/
theorem debounce_one_event_per_press_witness :
    wellSpaced 200 (-1000) [⟨0, 10, [(20, 30), (40, 50)]⟩] = true
      ∧ (runSampler 200 ⟨false, -1000⟩
            (samplesOf [⟨0, 10, [(20, 30), (40, 50)]⟩])).2 = 1 :=
  ⟨by decide,
   debounce_one_event_per_press 200 [⟨0, 10, [(20, 30), (40, 50)]⟩] false (-1000)
     (by decide)⟩

/-- Python `base.update(extra)` appends the extra pairs verbatim when
every extra key is absent from `base` and the extra keys repeat no key. -/
theorem dictUpdate_fresh (extra : List (String × JAtom)) :
    ∀ base : List (String × JAtom),
      (∀ x ∈ extra, ∀ y ∈ base, ¬ y.1 = x.1) →
      (extra.map Prod.fst).Nodup →
      dictUpdate base extra = base ++ extra := by
  induction extra with
  | nil =>
      intro base _ _
      simp [dictUpdate]
  | cons kv rest ih =>
      intro base hdisj hnodup
      have hbase : base.any (fun bkv => bkv.1 == kv.1) = false := by
        rw [List.any_eq_false]
        intro x hx
        simp [hdisj kv (by simp) x hx]
      have hset : dictSet base kv.1 kv.2 = base ++ [kv] := by
        simp [dictSet, hbase]
      have hn := List.nodup_cons.mp (show (kv.1 :: rest.map Prod.fst).Nodup from hnodup)
      have hkv_rest : ∀ x ∈ rest, ¬ x.1 = kv.1 := by
        intro x hx hcontra
        exact hn.1 (hcontra ▸ List.mem_map_of_mem Prod.fst hx)
      have hdisj2 : ∀ x ∈ rest, ∀ y ∈ base ++ [kv], ¬ y.1 = x.1 := by
        intro x hx y hy
        rcases List.mem_append.mp hy with hyb | hyk
        · exact hdisj x (by simp [hx]) y hyb
        · have hykv : y = kv := by simpa using hyk
          subst hykv
          intro hcontra
          exact hkv_rest x hx hcontra.symm
      calc dictUpdate base (kv :: rest)
          = dictUpdate (dictSet base kv.1 kv.2) rest := rfl
        _ = dictUpdate (base ++ [kv]) rest := by rw [hset]
        _ = (base ++ [kv]) ++ rest := ih (base ++ [kv]) hdisj2 hn.2
        _ = base ++ (kv :: rest) := by simp

/-- C9 counterexample: an extra-field map containing the key `timestamp`
overwrites the generated timestamp, so the round-tripped timestamp field
need not parse as ISO-8601. -/
theorem build_message_timestamp_override :
    dictGet (build_message "me" "2025-01-02T03:04:05+00:00" "touch"
          [("timestamp", JAtom.str "junk")]) "timestamp"
        = some (JAtom.str "junk")
      ∧ isValidIso "junk" = false := by
  constructor <;> rfl

/-- C9 amended: for extra-field maps whose keys avoid the three base keys
(Python call syntax already forbids `client_id` and `action`; `timestamp`
must additionally be avoided) and repeat no key, the constructed message
carries the extra fields verbatim, looks up `client_id`, `action` and
`timestamp` to exactly the constructed values, and the timestamp is the
generated ISO-8601 UTC string. -/
theorem build_message_roundtrip (cid ts act : String) (extra : List (String × JAtom))
    (hkeys : ∀ x ∈ extra,
      ¬ x.1 = "client_id" ∧ ¬ x.1 = "timestamp" ∧ ¬ x.1 = "action")
    (hnodup : (extra.map Prod.fst).Nodup)
    (hts : isValidIso ts = true) :
    build_message cid ts act extra
        = [("client_id", JAtom.str cid), ("timestamp", JAtom.str ts),
           ("action", JAtom.str act)] ++ extra
      ∧ dictGet (build_message cid ts act extra) "client_id" = some (JAtom.str cid)
      ∧ dictGet (build_message cid ts act extra) "action" = some (JAtom.str act)
      ∧ dictGet (build_message cid ts act extra) "timestamp" = some (JAtom.str ts)
      ∧ isValidIso ts = true := by
  have hdisj : ∀ x ∈ extra,
      ∀ y ∈ [("client_id", JAtom.str cid), ("timestamp", JAtom.str ts),
             ("action", JAtom.str act)], ¬ y.1 = x.1 := by
    intro x hx y hy
    obtain ⟨h1, h2, h3⟩ := hkeys x hx
    simp only [List.mem_cons, List.not_mem_nil, or_false] at hy
    rcases hy with rfl | rfl | rfl
    · exact fun hc => h1 hc.symm
    · exact fun hc => h2 hc.symm
    · exact fun hc => h3 hc.symm
  have hbm : build_message cid ts act extra
      = [("client_id", JAtom.str cid), ("timestamp", JAtom.str ts),
         ("action", JAtom.str act)] ++ extra :=
    dictUpdate_fresh extra _ hdisj hnodup
  refine ⟨hbm, ?_, ?_, ?_, hts⟩ <;> rw [hbm] <;> rfl

/-- Witness for C9: a concrete message with one extra field round-trips
with its generated timestamp intact. -/
theorem build_message_roundtrip_witness :
    isValidIso "2025-01-02T03:04:05+00:00" = true
      ∧ dictGet (build_message "me" "2025-01-02T03:04:05+00:00" "touch"
            [("building", JAtom.str "A")]) "timestamp"
        = some (JAtom.str "2025-01-02T03:04:05+00:00") :=
  ⟨by decide,
   (build_message_roundtrip "me" "2025-01-02T03:04:05+00:00" "touch"
      [("building", JAtom.str "A")] (by decide) (by decide) (by decide)).2.2.2.1⟩

end IotToucher
